import Mathlib

/-!
Verification of the per-turn movement decision engine of
`src/example_snakes/MikeSnake/main.py` (a Battlesnake agent).

The Python module is embedded shallowly: coordinates are integer pairs,
snakes are lists of coordinates with an id and a health value, the
per-move score dictionary and safety-mask dictionary become a four-field
record `MoveMap`, and the real-valued score accumulators become exact
rationals.  Python loops `for move in possible_moves` that update only the
entry of the current move are embedded as `List.foldl` over the literal
move list; `max(xs, key=f)` / `min(xs, key=f)` become folds that replace
the accumulator only on a strictly better key, which is exactly CPython's
first-maximal / first-minimal semantics.  The module-level constants are
gathered in `ModuleState`, which the top-level `move` function reads and
returns unchanged (the Python function contains no global write).
-/

namespace MikeSnake

/-- A board coordinate, the embedding of the Python dicts `{"x": .., "y": ..}`. -/
structure Pos where
  x : Int
  y : Int
deriving DecidableEq, Repr

instance : Inhabited Pos := ⟨⟨0, 0⟩⟩

/-- One of the four cardinal moves. -/
inductive Move where
  | up
  | down
  | left
  | right
deriving DecidableEq, Repr

/-- The fixed move enumeration `["up", "down", "left", "right"]` of the source. -/
def possibleMoves : List Move := [Move.up, Move.down, Move.left, Move.right]

/-- A snake of the snapshot: identifier, ordered body (head first), health. -/
structure Snake where
  id : Nat
  body : List Pos
  health : Int
deriving DecidableEq, Repr

/-- The board part of the snapshot. -/
structure Board where
  width : Int
  height : Int
  food : List Pos
  snakes : List Snake
deriving DecidableEq, Repr

/-- The per-turn snapshot (`game_state`): the board and the `you` snake. -/
structure GameState where
  board : Board
  you : Snake
deriving DecidableEq, Repr

/-- A mapping from the four moves to a value: the embedding of the Python
dicts keyed by the move strings (`move_scores`, `safe_moves_mask`). -/
structure MoveMap (α : Type) where
  up : α
  down : α
  left : α
  right : α
deriving DecidableEq, Repr

namespace MoveMap

def get {α : Type} (t : MoveMap α) : Move → α
  | Move.up => t.up
  | Move.down => t.down
  | Move.left => t.left
  | Move.right => t.right

def set {α : Type} (t : MoveMap α) : Move → α → MoveMap α
  | Move.up, v => { t with up := v }
  | Move.down, v => { t with down := v }
  | Move.left, v => { t with left := v }
  | Move.right, v => { t with right := v }

/-- The dict `{move: c for move in possible_moves}`. -/
def const {α : Type} (v : α) : MoveMap α := ⟨v, v, v, v⟩

end MoveMap

/-! ### Utility functions (`_get_next_position` .. `_positions_equal`) -/

/-- `_get_next_position`: the coordinate reached from `position` by `move`. -/
def get_next_position (position : Pos) (move : Move) : Pos :=
  match move with
  | Move.up => ⟨position.x, position.y + 1⟩
  | Move.down => ⟨position.x, position.y - 1⟩
  | Move.left => ⟨position.x - 1, position.y⟩
  | Move.right => ⟨position.x + 1, position.y⟩

/-- `_is_in_bounds`: `0 <= x < width and 0 <= y < height`. -/
def is_in_bounds (position : Pos) (width height : Int) : Bool :=
  decide (0 ≤ position.x) && decide (position.x < width) &&
    decide (0 ≤ position.y) && decide (position.y < height)

/-- `_is_collision_with_body`: `position` equals some segment of `body`. -/
def is_collision_with_body (position : Pos) (body : List Pos) : Bool :=
  body.any (fun segment => position.x == segment.x && position.y == segment.y)

/-- `_is_collision_with_opponents`: collision with any opponent's body, the
final (tail) segment excluded when `exclude_tails` is set. -/
def is_collision_with_opponents (position : Pos) (opponents : List Snake)
    (exclude_tails : Bool) : Bool :=
  opponents.any (fun opponent =>
    is_collision_with_body position
      (if exclude_tails then opponent.body.dropLast else opponent.body))

/-- `_manhattan_distance`. -/
def manhattan_distance (pos1 pos2 : Pos) : Int :=
  ((pos1.x - pos2.x).natAbs : Int) + ((pos1.y - pos2.y).natAbs : Int)

/-- `_positions_equal`. -/
def positions_equal (pos1 pos2 : Pos) : Bool :=
  pos1.x == pos2.x && pos1.y == pos2.y

/-- The opponent list: every snake of the board whose id differs from `you`'s.
The Python source recomputes this comprehension in `move`,
`_calculate_dynamic_aggressive_threshold` and `_evaluate_food_seeking_smart`;
all three are this definition. -/
def opponents_of (game_state : GameState) : List Snake :=
  game_state.board.snakes.filter (fun snake => snake.id ≠ game_state.you.id)

/-! ### Python `max`/`min` with a key

CPython's `max` (resp. `min`) keeps the current best and replaces it only
when a later element's key is strictly greater (resp. strictly smaller), so
ties resolve to the earliest element. -/

def py_max_by {α : Type} (key : α → ℚ) (x : α) (xs : List α) : α :=
  xs.foldl (fun best c => if key best < key c then c else best) x

def py_min_by {α : Type} (key : α → Int) (x : α) (xs : List α) : α :=
  xs.foldl (fun best c => if key c < key best then c else best) x

/-! ### Layer 1: `_evaluate_basic_safety` -/

/-- The disjunction of the four `continue` checks of `_evaluate_basic_safety`
for one move: reversing onto the neck, leaving the board, hitting the own
body minus its tail, hitting an opponent body minus its tail.  In the Python
loop each check subtracts 10000, clears the mask and `continue`s, so per
move the net effect is: if this disjunction holds, one penalty of 10000 and
`mask = False`; otherwise nothing. -/
def basic_safety_blocked (my_head : Pos) (my_neck : Option Pos) (my_body : List Pos)
    (opponents : List Snake) (board_width board_height : Int) (move : Move) : Bool :=
  let next_pos := get_next_position my_head move
  (match my_neck with
   | some neck => next_pos.x == neck.x && next_pos.y == neck.y
   | none => false)
  || !(is_in_bounds next_pos board_width board_height)
  || is_collision_with_body next_pos my_body.dropLast
  || is_collision_with_opponents next_pos opponents true

/-- `_evaluate_basic_safety`: returns the updated score table and the safety
mask.  `my_neck` is `my_body[1] if len(my_body) > 1 else None`. -/
def evaluate_basic_safety (my_head : Pos) (my_body : List Pos) (opponents : List Snake)
    (board_width board_height : Int) (move_scores : MoveMap ℚ) :
    MoveMap ℚ × MoveMap Bool :=
  let my_neck := my_body.get? 1
  possibleMoves.foldl
    (fun (st : MoveMap ℚ × MoveMap Bool) move =>
      if basic_safety_blocked my_head my_neck my_body opponents board_width board_height move then
        (st.1.set move (st.1.get move - 10000), st.2.set move false)
      else st)
    (move_scores, MoveMap.const true)

/-! ### `_flood_fill_dynamic` (patch 1) -/

/-- The obstacle set of `_flood_fill_dynamic`: the own body minus its tail,
plus every other snake's body minus that snake's tail (a list standing for
the Python set; only membership is ever used). -/
def flood_fill_obstacles (game_state : GameState) : List Pos :=
  game_state.you.body.dropLast ++
    ((game_state.board.snakes.filter
        (fun snake => snake.id ≠ game_state.you.id)).map
      (fun snake => snake.body.dropLast)).flatten

/-- The dynamic iteration cap of `_flood_fill_dynamic`: 80 for boards of at
most 100 cells, 120 up to 200 cells, else `min(board_size // 2, 250)`. -/
def flood_base_max (board_width board_height : Int) : Nat :=
  let board_size := board_width * board_height
  if board_size ≤ 100 then 80
  else if board_size ≤ 200 then 120
  else min (board_size / 2).toNat 250

/-- The `while queue and count < base_max` loop of `_flood_fill_dynamic`,
embedded with an explicit fuel.  Every recursive call is guarded by
`count < base_max` and increments `count`, so with starting fuel
`base_max + 1` the fuel never runs out before the loop's own exits
(queue empty, cap reached, or the `count >= safe_space` early break). -/
def flood_fill_aux (obstacles : List Pos) (board_width board_height : Int)
    (base_max safe_space : Nat) :
    Nat → List Pos → List Pos → Nat → Nat
  | 0, _, _, count => count
  | _ + 1, [], _, count => count
  | fuel + 1, current :: rest, visited, count =>
    if count < base_max then
      let count1 := count + 1
      if safe_space ≤ count1 then count1
      else
        let st := possibleMoves.foldl
          (fun (st : List Pos × List Pos) move =>
            let next_pos := get_next_position current move
            if !st.1.contains next_pos && !obstacles.contains next_pos &&
                is_in_bounds next_pos board_width board_height then
              (next_pos :: st.1, st.2 ++ [next_pos])
            else st)
          (visited, rest)
        flood_fill_aux obstacles board_width board_height base_max safe_space
          fuel st.2 st.1 count1
    else count

/-- `_flood_fill_dynamic`: bounded breadth-first count of reachable cells
from `start_pos`, early-exiting at `3 * my_length` visited cells. -/
def flood_fill_dynamic (start_pos : Pos) (game_state : GameState) : Nat :=
  let board_width := game_state.board.width
  let board_height := game_state.board.height
  let my_length := game_state.you.body.length
  let obstacles := flood_fill_obstacles game_state
  let base_max := flood_base_max board_width board_height
  let safe_space := my_length * 3
  flood_fill_aux obstacles board_width board_height base_max safe_space
    (base_max + 1) [start_pos] [start_pos] 0

/-! ### Layer 2: `_evaluate_space_availability` -/

/-- `_evaluate_space_availability`: for every mask-safe move, reward the
flood-fill count and penalize constrained pockets. -/
def evaluate_space_availability (my_head : Pos) (my_length : Nat)
    (move_scores : MoveMap ℚ) (safe_mask : MoveMap Bool)
    (game_state : GameState) : MoveMap ℚ :=
  possibleMoves.foldl
    (fun scores move =>
      if !(safe_mask.get move) then scores
      else
        let next_pos := get_next_position my_head move
        let available_space := flood_fill_dynamic next_pos game_state
        let scores1 := scores.set move (scores.get move + (available_space : ℚ) * 10)
        if available_space < my_length then
          let penalty : ℚ := ((my_length : ℚ) - (available_space : ℚ)) * 50
          let scores2 := scores1.set move (scores1.get move - penalty)
          if available_space < my_length / 2 then
            scores2.set move (scores2.get move - 200)
          else scores2
        else scores1)
    move_scores

/-! ### Patch 5: `_calculate_dynamic_aggressive_threshold` -/

/-- The average opponent body length, `sum(len(s['body']) ...) / len(opponents)`
(Python float division, embedded exactly as a rational). -/
def average_opponent_length (opponents : List Snake) : ℚ :=
  ((opponents.map (fun snake => (snake.body.length : ℚ))).sum) / (opponents.length : ℚ)

/-- The maximum opponent body length, `max(len(s['body']) ...)`; only used
under a nonemptiness guard, where the 0 seed of the fold is neutral. -/
def max_opponent_length (opponents : List Snake) : Nat :=
  (opponents.map (fun snake => snake.body.length)).foldl max 0

/-- `_calculate_dynamic_aggressive_threshold`: the dynamic aggression
threshold, five prioritized rules and a default. -/
def calculate_dynamic_aggressive_threshold (game_state : GameState) : Int :=
  let my_length := game_state.you.body.length
  let opponents := opponents_of game_state
  if opponents.isEmpty then 6
  else
    let avg_opponent_length := average_opponent_length opponents
    let max_opp := max_opponent_length opponents
    if (my_length : ℚ) + 3 < avg_opponent_length then 10
    else if my_length + 4 < max_opp then 11
    else if avg_opponent_length < (my_length : ℚ) - 2 then 6
    else if 4 ≤ opponents.length then 9
    else if opponents.length ≤ 2 then 7
    else 8

/-! ### Patch 2: `_evaluate_emergency_strategy_enhanced` and its helpers -/

/-- The food option record built by the emergency strategy. -/
structure FoodOption where
  target : Pos
  distance : Int
  score : ℚ
deriving DecidableEq, Repr

/-- The hunt option record built by the emergency strategy. -/
structure HuntOption where
  target : Pos
  distance : Int
  score : ℚ
  third_party_risk : ℚ
  path_safe : Bool
deriving DecidableEq, Repr

/-- The emergency food option: the closest food (Python `min`, first-minimal)
when it is nearer than the current health, scored `500 / (distance + 1)`. -/
def best_food_option (my_head : Pos) (my_health : Int) (food : List Pos) :
    Option FoodOption :=
  match food with
  | [] => none
  | f :: fs =>
    let closest_food := py_min_by (fun g => manhattan_distance my_head g) f fs
    let food_distance := manhattan_distance my_head closest_food
    if food_distance < my_health then
      some ⟨closest_food, food_distance, 500 / ((food_distance : ℚ) + 1)⟩
    else none

/-- The `third_party_threat` accumulation of the emergency hunt loop: over
every other opponent at least as long as Self within distance 5 of the
target opponent's head, add `200 / (distance + 1)`. -/
def third_party_threat_of (opponent : Snake) (opponents : List Snake)
    (my_length : Nat) : ℚ :=
  opponents.foldl
    (fun threat other =>
      if other.id == opponent.id then threat
      else
        let other_length := other.body.length
        let other_head := other.body.headI
        if my_length ≤ other_length then
          let distance_to_other := manhattan_distance opponent.body.headI other_head
          if distance_to_other ≤ 5 then threat + 200 / ((distance_to_other : ℚ) + 1)
          else threat
        else threat)
    0

/-- The simulated snapshot of the chase-path check: `you` replaced by a body
that has already moved onto the opponent's head (same id, same health, same
board). -/
def chase_game_state (game_state : GameState) (opponent_head : Pos) : GameState :=
  { game_state with
    you := { id := game_state.you.id,
             body := opponent_head :: game_state.you.body.dropLast,
             health := game_state.you.health } }

/-- One iteration of the emergency hunt loop: `none` when the opponent is
filtered out (not strictly shorter, or out of `health - 5` range, or its
composite score fails the `> 50` / reward-threshold gate), else its record. -/
def hunt_candidate (game_state : GameState) (my_head : Pos) (my_length : Nat)
    (my_health : Int) (opponents : List Snake) (hunt_reward_threshold : Int)
    (opponent : Snake) : Option HuntOption :=
  let opponent_length := opponent.body.length
  let opponent_head := opponent.body.headI
  if my_length ≤ opponent_length then none
  else
    let distance_to_opponent := manhattan_distance my_head opponent_head
    if my_health - 5 ≤ distance_to_opponent then none
    else
      let potential_food_gain := opponent_length
      let third_party_threat := third_party_threat_of opponent opponents my_length
      let chase_space :=
        flood_fill_dynamic opponent_head (chase_game_state game_state opponent_head)
      let chase_path_safe := my_length ≤ chase_space
      let hunt_score : ℚ :=
        (potential_food_gain : ℚ) * 50 - (distance_to_opponent : ℚ) * 10
          - third_party_threat - (if chase_path_safe then 0 else 150) - 100
      if 50 < hunt_score ∧ hunt_reward_threshold ≤ (potential_food_gain : Int) then
        some ⟨opponent_head, distance_to_opponent, hunt_score, third_party_threat,
              chase_path_safe⟩
      else none

/-- The emergency hunt loop: the first candidate with the strictly highest
score is retained (`hunt_score > best_hunt_option['score']`). -/
def best_hunt_option (game_state : GameState) (my_head : Pos) (my_length : Nat)
    (my_health : Int) (opponents : List Snake) (hunt_reward_threshold : Int) :
    Option HuntOption :=
  opponents.foldl
    (fun best opponent =>
      match hunt_candidate game_state my_head my_length my_health opponents
          hunt_reward_threshold opponent with
      | none => best
      | some cand =>
        match best with
        | none => some cand
        | some b => if b.score < cand.score then some cand else best)
    none

/-- `_apply_hunting_strategy`: add `score / (distance + 1)` toward the hunt
target on every mask-safe move. -/
def apply_hunting_strategy (my_head : Pos) (hunt_option : HuntOption)
    (move_scores : MoveMap ℚ) (safe_mask : MoveMap Bool) : MoveMap ℚ :=
  possibleMoves.foldl
    (fun scores move =>
      if !(safe_mask.get move) then scores
      else
        let next_pos := get_next_position my_head move
        let distance := manhattan_distance next_pos hunt_option.target
        scores.set move (scores.get move + hunt_option.score / ((distance : ℚ) + 1)))
    move_scores

/-- `_apply_food_seeking`: add `weight / (distance + 1)` toward `target_food`
on every mask-safe move. -/
def apply_food_seeking (my_head : Pos) (target_food : Pos) (move_scores : MoveMap ℚ)
    (safe_mask : MoveMap Bool) (weight : ℚ) : MoveMap ℚ :=
  possibleMoves.foldl
    (fun scores move =>
      if !(safe_mask.get move) then scores
      else
        let next_pos := get_next_position my_head move
        let distance := manhattan_distance next_pos target_food
        scores.set move (scores.get move + weight / ((distance : ℚ) + 1)))
    move_scores

/-- `_evaluate_emergency_strategy_enhanced`: build the food and hunt options
and arbitrate.  With both present, hunting needs score above twice the food
score, a safe chase path and third-party risk below 100; otherwise the food
option is applied with the fixed weight 500. -/
def evaluate_emergency_strategy_enhanced (my_head : Pos) (my_length : Nat)
    (my_health : Int) (food : List Pos) (opponents : List Snake)
    (move_scores : MoveMap ℚ) (safe_mask : MoveMap Bool)
    (game_state : GameState) (hunt_reward_threshold : Int) : MoveMap ℚ :=
  let bf := best_food_option my_head my_health food
  let bh := best_hunt_option game_state my_head my_length my_health opponents
    hunt_reward_threshold
  match bh, bf with
  | some h, some f =>
    if f.score * 2 < h.score ∧ h.path_safe = true ∧ h.third_party_risk < 100 then
      apply_hunting_strategy my_head h move_scores safe_mask
    else
      apply_food_seeking my_head f.target move_scores safe_mask 500
  | some h, none => apply_hunting_strategy my_head h move_scores safe_mask
  | none, some f => apply_food_seeking my_head f.target move_scores safe_mask 500
  | none, none => move_scores

/-! ### Patch 4: `_evaluate_food_seeking_smart` and its helpers -/

/-- `_estimate_space_after_reaching`: flood fill from the food cell with a
simulated body that has already consumed it. -/
def estimate_space_after_reaching (food_pos : Pos) (game_state : GameState) : Nat :=
  flood_fill_dynamic food_pos
    { board := game_state.board,
      you := { id := game_state.you.id,
               body := food_pos :: game_state.you.body.dropLast,
               health := game_state.you.health } }

/-- `_count_threats_near`: over every opponent at least as long as Self whose
distance to the food is at most the own distance, add `10 / (distance + 1)`. -/
def count_threats_near (food_pos : Pos) (opponents : List Snake)
    (my_length : Nat) (my_head : Pos) : ℚ :=
  let my_distance := manhattan_distance my_head food_pos
  opponents.foldl
    (fun threat_count opponent =>
      let opp_head := opponent.body.headI
      let opp_distance := manhattan_distance opp_head food_pos
      let opp_length := opponent.body.length
      if opp_distance ≤ my_distance ∧ my_length ≤ opp_length then
        threat_count + 10 / ((opp_distance : ℚ) + 1)
      else threat_count)
    0

/-- `_evaluate_food_seeking_smart`: rank every food by
`100/(d+1) + 2*space - threat`, take the best (Python `max`, first-maximal)
and pull every mask-safe move toward it with weight 200/100/30. -/
def evaluate_food_seeking_smart (my_head : Pos) (food : List Pos)
    (move_scores : MoveMap ℚ) (safe_mask : MoveMap Bool)
    (is_critical need_food : Bool) (game_state : GameState) : MoveMap ℚ :=
  let my_length := game_state.you.body.length
  let opponents := opponents_of game_state
  let food_evaluations := food.map (fun f =>
    let distance := manhattan_distance my_head f
    let distance_score : ℚ := 100 / ((distance : ℚ) + 1)
    let space := estimate_space_after_reaching f game_state
    let space_score : ℚ := (space : ℚ) * 2
    let threat := count_threats_near f opponents my_length my_head
    (f, distance_score + space_score + (-threat)))
  match food_evaluations with
  | [] => move_scores
  | e :: es =>
    let best_food := (py_max_by (fun p => p.2) e es).1
    let food_weight : ℚ := if is_critical then 200 else if need_food then 100 else 30
    possibleMoves.foldl
      (fun scores move =>
        if !(safe_mask.get move) then scores
        else
          let next_pos := get_next_position my_head move
          let distance_to_best := manhattan_distance next_pos best_food
          scores.set move (scores.get move + food_weight / ((distance_to_best : ℚ) + 1)))
      move_scores

/-! ### `_evaluate_aggressive_strategy` -/

/-- `_evaluate_aggressive_strategy`: close on strictly shorter opponents,
keep distance (within 2) from opponents at least as long. -/
def evaluate_aggressive_strategy (my_head : Pos) (my_length : Nat)
    (opponents : List Snake) (move_scores : MoveMap ℚ)
    (safe_mask : MoveMap Bool) : MoveMap ℚ :=
  opponents.foldl
    (fun scores opponent =>
      let opponent_head := opponent.body.headI
      let opponent_length := opponent.body.length
      if opponent_length < my_length then
        possibleMoves.foldl
          (fun scores move =>
            if !(safe_mask.get move) then scores
            else
              let next_pos := get_next_position my_head move
              let distance := manhattan_distance next_pos opponent_head
              scores.set move (scores.get move + 50 / ((distance : ℚ) + 1)))
          scores
      else
        possibleMoves.foldl
          (fun scores move =>
            if !(safe_mask.get move) then scores
            else
              let next_pos := get_next_position my_head move
              let distance := manhattan_distance next_pos opponent_head
              if distance ≤ 2 then
                scores.set move (scores.get move - 100 / ((distance : ℚ) + 1))
              else scores)
          scores)
    move_scores

/-! ### Patch 3: `_predict_opponent_next_moves` and
`_evaluate_head_to_head_defense_enhanced` -/

/-- `_predict_opponent_next_moves` with `depth=2`: the legal one-step head
positions, followed by the legal two-step positions (each checked against a
body advanced by one step). -/
def predict_opponent_next_moves (opponent : Snake)
    (board_width board_height : Int) (depth : Nat) : List Pos :=
  let opponent_head := opponent.body.headI
  let opponent_body := opponent.body
  let first_step_positions := possibleMoves.foldl
    (fun acc move1 =>
      let pos1 := get_next_position opponent_head move1
      if !(is_in_bounds pos1 board_width board_height) then acc
      else if is_collision_with_body pos1 opponent_body.dropLast then acc
      else acc ++ [pos1])
    []
  if 2 ≤ depth then
    first_step_positions.foldl
      (fun acc pos1 =>
        possibleMoves.foldl
          (fun acc move2 =>
            let pos2 := get_next_position pos1 move2
            if !(is_in_bounds pos2 board_width board_height) then acc
            else
              let future_body := pos1 :: opponent_body.dropLast.dropLast
              if is_collision_with_body pos2 future_body then acc
              else acc ++ [pos2])
          acc)
      first_step_positions
  else first_step_positions

/-- `_evaluate_head_to_head_defense_enhanced`: for every opponent at least as
long as Self, penalize every mask-safe move landing on a predicted position;
the Python `break` after the first matching prediction applies the penalty
once, which is the `any` below. -/
def evaluate_head_to_head_defense_enhanced (my_head : Pos) (my_length : Nat)
    (opponents : List Snake) (board_width board_height : Int)
    (move_scores : MoveMap ℚ) (safe_mask : MoveMap Bool) : MoveMap ℚ :=
  opponents.foldl
    (fun scores opponent =>
      let opponent_head := opponent.body.headI
      let opponent_length := opponent.body.length
      if my_length ≤ opponent_length then
        let predicted_positions :=
          predict_opponent_next_moves opponent board_width board_height 2
        possibleMoves.foldl
          (fun scores move =>
            if !(safe_mask.get move) then scores
            else
              let next_pos := get_next_position my_head move
              if predicted_positions.any
                  (fun pred_pos => positions_equal next_pos pred_pos) then
                let distance := manhattan_distance next_pos opponent_head
                let penalty : ℚ :=
                  if distance ≤ 1 then
                    400 + ((opponent_length : ℚ) - (my_length : ℚ)) * 50
                  else 200 + ((opponent_length : ℚ) - (my_length : ℚ)) * 30
                scores.set move (scores.get move - penalty)
              else scores)
          scores
      else scores)
    move_scores

/-! ### `_evaluate_position_preference` -/

/-- `_evaluate_position_preference`: reward proximity to the board center
(Python float halves, embedded as exact rationals). -/
def evaluate_position_preference (my_head : Pos) (board_width board_height : Int)
    (move_scores : MoveMap ℚ) (safe_mask : MoveMap Bool) : MoveMap ℚ :=
  let center_x : ℚ := (board_width : ℚ) / 2
  let center_y : ℚ := (board_height : ℚ) / 2
  possibleMoves.foldl
    (fun scores move =>
      if !(safe_mask.get move) then scores
      else
        let next_pos := get_next_position my_head move
        let distance_to_center :=
          |(next_pos.x : ℚ) - center_x| + |(next_pos.y : ℚ) - center_y|
        scores.set move (scores.get move + 5 / (distance_to_center + 1)))
    move_scores

/-! ### The decision aggregator and the `move` entry point -/

/-- Python `max(moves, key=...)` specialized to a possibly-empty move list;
the empty case never arises (both call sites guard nonemptiness, as the
Python `max` would raise there). -/
def py_max_move (key : Move → ℚ) : List Move → Move
  | [] => Move.up
  | m :: rest => py_max_by key m rest

/-- The final selection of `move`: candidates are the mask-safe moves with
accumulated score above -9000; if none exist, arg-max over all four moves,
else arg-max among the candidates (Python `max`: ties to the earliest move
in the fixed enumeration order). -/
def select_best_move (move_scores : MoveMap ℚ) (safe_moves_mask : MoveMap Bool) : Move :=
  let safe_moves := possibleMoves.filter
    (fun m => safe_moves_mask.get m && decide (-9000 < move_scores.get m))
  match safe_moves with
  | [] => py_max_move (fun m => move_scores.get m) possibleMoves
  | m :: rest => py_max_by (fun m => move_scores.get m) m rest

/-- The module-level constants of the source.  `move` reads the three
thresholds and writes nothing, so the state comes back unchanged; the
dynamically computed aggression threshold shadows
`AGGRESSIVE_LENGTH_THRESHOLD`, which is therefore never read. -/
structure ModuleState where
  aggressive_length_threshold : Int
  low_health_threshold : Int
  critical_health_threshold : Int
  hunt_reward_threshold : Int
deriving DecidableEq, Repr

/-- The constants as the module initializes them: 8, 30, 15, 3. -/
def initial_module_state : ModuleState := ⟨8, 30, 15, 3⟩

/-- The body of `move`: the full scoring pipeline.  Returns the final score
table, the safety mask and the selected move. -/
def move_pipeline (ms : ModuleState) (game_state : GameState) :
    MoveMap ℚ × MoveMap Bool × Move :=
  let my_head := game_state.you.body.headI
  let my_body := game_state.you.body
  let my_length := my_body.length
  let my_health := game_state.you.health
  let board_width := game_state.board.width
  let board_height := game_state.board.height
  let food := game_state.board.food
  let opponents := opponents_of game_state
  let st := evaluate_basic_safety my_head my_body opponents board_width board_height
    (MoveMap.const 0)
  let safe_moves_mask := st.2
  let scores1 := evaluate_space_availability my_head my_length st.1 safe_moves_mask
    game_state
  let dynamic_threshold := calculate_dynamic_aggressive_threshold game_state
  let is_aggressive : Bool :=
    decide (dynamic_threshold ≤ (my_length : Int)) &&
      decide (ms.low_health_threshold < my_health)
  let is_critical : Bool := decide (my_health < ms.critical_health_threshold)
  let need_food : Bool := decide (my_health < ms.low_health_threshold)
  let scores2 :=
    if is_critical && !opponents.isEmpty then
      evaluate_emergency_strategy_enhanced my_head my_length my_health food opponents
        scores1 safe_moves_mask game_state ms.hunt_reward_threshold
    else if !food.isEmpty && (need_food || !is_aggressive) then
      evaluate_food_seeking_smart my_head food scores1 safe_moves_mask
        is_critical need_food game_state
    else scores1
  let scores3 :=
    if is_aggressive && !opponents.isEmpty then
      evaluate_aggressive_strategy my_head my_length opponents scores2 safe_moves_mask
    else scores2
  let scores4 :=
    if !opponents.isEmpty then
      evaluate_head_to_head_defense_enhanced my_head my_length opponents
        board_width board_height scores3 safe_moves_mask
    else scores3
  let scores5 := evaluate_position_preference my_head board_width board_height
    scores4 safe_moves_mask
  (scores5, safe_moves_mask, select_best_move scores5 safe_moves_mask)

/-- `move`: the per-turn entry point.  Takes the module state it can read
and returns it alongside the chosen move (the Python function assigns no
global, so the state is returned as received). -/
def move (ms : ModuleState) (game_state : GameState) : Move × ModuleState :=
  ((move_pipeline ms game_state).2.2, ms)

/-- The chosen move from the initial module constants. -/
def move_decision (game_state : GameState) : Move :=
  (move_pipeline initial_module_state game_state).2.2

/-- The final accumulated score table of a turn. -/
def final_scores (game_state : GameState) : MoveMap ℚ :=
  (move_pipeline initial_module_state game_state).1

/-- The safety mask of a turn (produced by the safety filter and read-only
afterwards). -/
def final_mask (game_state : GameState) : MoveMap Bool :=
  (move_pipeline initial_module_state game_state).2.1

/-! ### Specification-side definitions

These restate conditions in the words of the specification, to be compared
against the source-derived definitions above. -/

/-- The specification's unsafety condition for one move (section 4.1): the
resulting coordinate equals the neck (the second body segment), or leaves
the board, or hits a non-tail segment of the own body, or hits a non-tail
segment of some opponent's body. -/
def safety_unsafe_spec (game_state : GameState) (m : Move) : Prop :=
  let next := get_next_position game_state.you.body.headI m
  game_state.you.body.get? 1 = some next ∨
  ¬(0 ≤ next.x ∧ next.x < game_state.board.width ∧
    0 ≤ next.y ∧ next.y < game_state.board.height) ∨
  next ∈ game_state.you.body.dropLast ∨
  ∃ snake ∈ opponents_of game_state, next ∈ snake.body.dropLast

/-- `r` is the arg-max of `key` over `l` with ties broken by list order:
`r` occurs in `l`, strictly beats everything before it and weakly beats
everything after it. -/
def first_argmax {α : Type} (key : α → ℚ) (l : List α) (r : α) : Prop :=
  ∃ l1 l2, l = l1 ++ r :: l2 ∧ (∀ a ∈ l1, key a < key r) ∧ (∀ a ∈ l2, key a ≤ key r)

/-- The claim's per-move emergency score projection, read literally: the
chosen option's score is projected as `option_score / (distance + 1)` onto
every mask-safe move — also in the food branches, where the source instead
uses the fixed weight 500. -/
def emergency_delta_claimed (game_state : GameState) (safe_mask : MoveMap Bool)
    (m : Move) : ℚ :=
  let my_head := game_state.you.body.headI
  let bf := best_food_option my_head game_state.you.health game_state.board.food
  let bh := best_hunt_option game_state my_head game_state.you.body.length
    game_state.you.health (opponents_of game_state) 3
  if !(safe_mask.get m) then 0
  else
    match bh, bf with
    | some h, some f =>
      if f.score * 2 < h.score ∧ h.path_safe = true ∧ h.third_party_risk < 100 then
        h.score / ((manhattan_distance (get_next_position my_head m) h.target : ℚ) + 1)
      else
        f.score / ((manhattan_distance (get_next_position my_head m) f.target : ℚ) + 1)
    | some h, none =>
      h.score / ((manhattan_distance (get_next_position my_head m) h.target : ℚ) + 1)
    | none, some f =>
      f.score / ((manhattan_distance (get_next_position my_head m) f.target : ℚ) + 1)
    | none, none => 0

/-- The amended per-move emergency projection: as claimed, except that a
chosen food option is projected with the fixed emergency food weight 500,
not with its own score. -/
def emergency_delta_amended (game_state : GameState) (safe_mask : MoveMap Bool)
    (m : Move) : ℚ :=
  let my_head := game_state.you.body.headI
  let bf := best_food_option my_head game_state.you.health game_state.board.food
  let bh := best_hunt_option game_state my_head game_state.you.body.length
    game_state.you.health (opponents_of game_state) 3
  if !(safe_mask.get m) then 0
  else
    match bh, bf with
    | some h, some f =>
      if f.score * 2 < h.score ∧ h.path_safe = true ∧ h.third_party_risk < 100 then
        h.score / ((manhattan_distance (get_next_position my_head m) h.target : ℚ) + 1)
      else
        (500 : ℚ) / ((manhattan_distance (get_next_position my_head m) f.target : ℚ) + 1)
    | some h, none =>
      h.score / ((manhattan_distance (get_next_position my_head m) h.target : ℚ) + 1)
    | none, some f =>
      (500 : ℚ) / ((manhattan_distance (get_next_position my_head m) f.target : ℚ) + 1)
    | none, none => 0

/-- The specification's threshold table (section 4.4), written as its
prioritized rule list over the average (a rational) and the maximum
opponent length. -/
def aggression_threshold_spec (game_state : GameState) : Int :=
  let self_length := game_state.you.body.length
  match opponents_of game_state with
  | [] => 6
  | o :: os =>
    let opponents := o :: os
    if (self_length : ℚ) + 3 < average_opponent_length opponents then 10
    else if (self_length : Int) + 4 < (max_opponent_length opponents : Int) then 11
    else if average_opponent_length opponents < (self_length : ℚ) - 2 then 6
    else if 4 ≤ opponents.length then 9
    else if opponents.length ≤ 2 then 7
    else 8

/-! ### Concrete snapshots used by counterexamples and witnesses -/

/-- `n` integers ascending from `start`. -/
def asc_ints (start : Int) (n : Nat) : List Int :=
  (List.range n).map (fun i => start + (i : Int))

/-- `n` integers descending from `start`. -/
def desc_ints (start : Int) (n : Nat) : List Int :=
  (List.range n).map (fun i => start - (i : Int))

/-- A serpentine opponent body of 197 cells on the 15 by 15 board: row 0 from
x 2 to 14, row 1 back from 14 to 2, the three cells (2,2),(1,2),(0,2), then
full-width rows from y 3 upward, truncated to 197 segments.  Head (2,0),
all segments distinct and orthogonally adjacent, avoiding the cells
(0,0),(0,1),(1,1) of the own snake and the free cell (1,0). -/
def big_opponent_body : List Pos :=
  ((asc_ints 2 13).map (fun x => (⟨x, 0⟩ : Pos)) ++
   (desc_ints 14 13).map (fun x => (⟨x, 1⟩ : Pos)) ++
   (desc_ints 2 3).map (fun x => (⟨x, 2⟩ : Pos)) ++
   ((List.range 12).map (fun k =>
      if k % 2 = 0 then (asc_ints 0 15).map (fun x => (⟨x, 3 + (k : Int)⟩ : Pos))
      else (desc_ints 14 15).map (fun x => (⟨x, 3 + (k : Int)⟩ : Pos)))).flatten).take 197

/-- The snapshot refuting C1 and C4: the own snake sits in the corner with
head (0,0), neck (0,1), tail (1,1); up reverses onto the neck and down/left
leave the board, so right is the only mask-safe move, but a 197-long
opponent whose head (2,0) is adjacent to the resulting cell (1,0) lands a
head-to-head penalty of 10100 on it, driving its score below -10000.  The
fallback arg-max then returns the mask-unsafe neck move up. -/
def corner_trap_state : GameState :=
  { board := { width := 15, height := 15, food := [],
               snakes := [⟨0, [⟨0, 0⟩, ⟨0, 1⟩, ⟨1, 1⟩], 50⟩,
                          ⟨1, big_opponent_body, 90⟩] },
    you := ⟨0, [⟨0, 0⟩, ⟨0, 1⟩, ⟨1, 1⟩], 50⟩ }

/-- A plain open snapshot: a length-2 snake alone near the center of a 5 by 5
board; only the reverse move down is unsafe. -/
def open_board_state : GameState :=
  { board := { width := 5, height := 5, food := [],
               snakes := [⟨0, [⟨2, 2⟩, ⟨2, 1⟩], 80⟩] },
    you := ⟨0, [⟨2, 2⟩, ⟨2, 1⟩], 80⟩ }

/-- Threshold counterexample, first population: self length 3, opponents of
lengths 8 and 2 (average 5, maximum 8): the maximum-length rule fires and
the threshold is 11. -/
def weak_average_state : GameState :=
  { board := { width := 11, height := 11, food := [],
               snakes := [⟨0, [⟨0, 0⟩, ⟨0, 1⟩, ⟨0, 2⟩], 80⟩,
                          ⟨1, (asc_ints 0 8).map (fun x => ⟨x, 10⟩), 80⟩,
                          ⟨2, [⟨10, 0⟩, ⟨10, 1⟩], 80⟩] },
    you := ⟨0, [⟨0, 0⟩, ⟨0, 1⟩, ⟨0, 2⟩], 80⟩ }

/-- Threshold counterexample, second population: same self, opponents of
lengths 8 and 6 (average 7 above self + 3): threshold 10. -/
def strong_average_state : GameState :=
  { board := { width := 11, height := 11, food := [],
               snakes := [⟨0, [⟨0, 0⟩, ⟨0, 1⟩, ⟨0, 2⟩], 80⟩,
                          ⟨1, (asc_ints 0 8).map (fun x => ⟨x, 10⟩), 80⟩,
                          ⟨2, (asc_ints 0 6).map (fun x => ⟨x, 8⟩), 80⟩] },
    you := ⟨0, [⟨0, 0⟩, ⟨0, 1⟩, ⟨0, 2⟩], 80⟩ }

/-- Threshold witness states: self length 3 against a single opponent of
length 2, resp. 4; neither triggers the maximum-length rule. -/
def calm_state_small : GameState :=
  { board := { width := 11, height := 11, food := [],
               snakes := [⟨0, [⟨0, 0⟩, ⟨0, 1⟩, ⟨0, 2⟩], 80⟩,
                          ⟨1, [⟨10, 0⟩, ⟨10, 1⟩], 80⟩] },
    you := ⟨0, [⟨0, 0⟩, ⟨0, 1⟩, ⟨0, 2⟩], 80⟩ }

def calm_state_large : GameState :=
  { board := { width := 11, height := 11, food := [],
               snakes := [⟨0, [⟨0, 0⟩, ⟨0, 1⟩, ⟨0, 2⟩], 80⟩,
                          ⟨1, (asc_ints 0 4).map (fun x => ⟨x, 10⟩), 80⟩] },
    you := ⟨0, [⟨0, 0⟩, ⟨0, 1⟩, ⟨0, 2⟩], 80⟩ }

/-- Emergency snapshot: health 10, one longer opponent (so no hunt option),
one food two cells to the right of the head. -/
def hungry_state : GameState :=
  { board := { width := 7, height := 7, food := [⟨5, 3⟩],
               snakes := [⟨0, [⟨3, 3⟩, ⟨2, 3⟩, ⟨1, 3⟩], 10⟩,
                          ⟨1, [⟨0, 6⟩, ⟨1, 6⟩, ⟨2, 6⟩, ⟨3, 6⟩, ⟨4, 6⟩], 90⟩] },
    you := ⟨0, [⟨3, 3⟩, ⟨2, 3⟩, ⟨1, 3⟩], 10⟩ }

/-! ## Lemma layer -/

attribute [local semireducible] Rat.mul Rat.add Rat.sub Rat.inv

theorem MoveMap.get_set {α : Type} (t : MoveMap α) (mv m : Move) (v : α) :
    (t.set mv v).get m = if m = mv then v else t.get m := by
  cases mv <;> cases m <;> simp [MoveMap.get, MoveMap.set]

theorem MoveMap.get_const {α : Type} (v : α) (m : Move) :
    (MoveMap.const v).get m = v := by
  cases m <;> rfl

theorem mem_possibleMoves (m : Move) : m ∈ possibleMoves := by
  cases m <;> simp [possibleMoves]

theorem positions_equal_iff (p q : Pos) : positions_equal p q = true ↔ p = q := by
  obtain ⟨a, b⟩ := p
  obtain ⟨c, d⟩ := q
  simp [positions_equal, Pos.mk.injEq]

theorem is_collision_with_body_iff (p : Pos) (body : List Pos) :
    is_collision_with_body p body = true ↔ p ∈ body := by
  obtain ⟨a, b⟩ := p
  simp only [is_collision_with_body, List.any_eq_true, Bool.and_eq_true, beq_iff_eq]
  constructor
  · rintro ⟨s, hs, hx, hy⟩
    obtain ⟨c, d⟩ := s
    cases hx
    cases hy
    exact hs
  · intro hp
    exact ⟨_, hp, rfl, rfl⟩

theorem is_in_bounds_iff (p : Pos) (w h : Int) :
    is_in_bounds p w h = true ↔ 0 ≤ p.x ∧ p.x < w ∧ 0 ≤ p.y ∧ p.y < h := by
  simp [is_in_bounds, and_assoc]

theorem is_collision_with_opponents_iff (p : Pos) (opponents : List Snake) :
    is_collision_with_opponents p opponents true = true ↔
      ∃ snake ∈ opponents, p ∈ snake.body.dropLast := by
  simp [is_collision_with_opponents, List.any_eq_true, is_collision_with_body_iff]

/-- Python `max` with a key returns the first maximizer. -/
theorem py_max_by_first_argmax {α : Type} (key : α → ℚ) (x : α) (xs : List α) :
    first_argmax key (x :: xs) (py_max_by key x xs) := by
  induction xs using List.reverseRecOn with
  | nil => exact ⟨[], [], rfl, by simp, by simp⟩
  | append_singleton ys y ih =>
    obtain ⟨l1, l2, hsplit, hbefore, hafter⟩ := ih
    unfold py_max_by at hsplit hbefore hafter ⊢
    rw [List.foldl_append, List.foldl_cons, List.foldl_nil]
    by_cases hlt : key (List.foldl (fun best c => if key best < key c then c else best) x ys) < key y
    · rw [if_pos hlt]
      refine ⟨x :: ys, [], by simp, ?_, by simp⟩
      intro a ha
      rw [hsplit] at ha
      rcases List.mem_append.1 ha with h1 | h2
      · exact lt_trans (hbefore a h1) hlt
      · rcases List.mem_cons.1 h2 with rfl | h3
        · exact hlt
        · exact lt_of_le_of_lt (hafter a h3) hlt
    · rw [if_neg hlt]
      refine ⟨l1, l2 ++ [y], ?_, hbefore, ?_⟩
      · have h0 : x :: (ys ++ [y]) = (x :: ys) ++ [y] := by simp
        rw [h0, hsplit, List.append_assoc, List.cons_append]
      · intro a ha
        rcases List.mem_append.1 ha with h1 | h2
        · exact hafter a h1
        · rcases List.mem_singleton.1 h2 with rfl
          exact le_of_not_lt hlt

theorem first_argmax_mem {α : Type} {key : α → ℚ} {l : List α} {r : α}
    (h : first_argmax key l r) : r ∈ l := by
  obtain ⟨l1, l2, rfl, -, -⟩ := h
  simp

/-- A fold whose every step leaves the entry at `m` unchanged leaves the
fold result's entry at `m` unchanged. -/
theorem foldl_get_preserve {α : Type} (step : MoveMap ℚ → α → MoveMap ℚ) (m : Move) :
    ∀ (l : List α) (sc : MoveMap ℚ),
      (∀ sc1 a, a ∈ l → (step sc1 a).get m = sc1.get m) →
      (l.foldl step sc).get m = sc.get m := by
  intro l
  induction l with
  | nil => intro sc _; rfl
  | cons a l ih =>
    intro sc h
    rw [List.foldl_cons, ih _ (fun sc1 b hb => h sc1 b (List.mem_cons_of_mem a hb)),
      h sc a (List.mem_cons_self a l)]

/-! ### Safety filter characterization -/

theorem evaluate_basic_safety_get_mask (my_head : Pos) (my_body : List Pos)
    (opponents : List Snake) (w h : Int) (sc : MoveMap ℚ) (m : Move) :
    ((evaluate_basic_safety my_head my_body opponents w h sc).2).get m
      = !(basic_safety_blocked my_head (my_body.get? 1) my_body opponents w h m) := by
  cases m <;>
    simp only [evaluate_basic_safety, possibleMoves, List.foldl] <;>
    (repeat' split) <;>
    simp_all [MoveMap.get, MoveMap.set, MoveMap.const]

theorem evaluate_basic_safety_get_score (my_head : Pos) (my_body : List Pos)
    (opponents : List Snake) (w h : Int) (sc : MoveMap ℚ) (m : Move) :
    ((evaluate_basic_safety my_head my_body opponents w h sc).1).get m
      = (if basic_safety_blocked my_head (my_body.get? 1) my_body opponents w h m
         then sc.get m - 10000 else sc.get m) := by
  cases m <;>
    simp only [evaluate_basic_safety, possibleMoves, List.foldl] <;>
    (repeat' split) <;>
    simp_all [MoveMap.get, MoveMap.set, MoveMap.const]

/-! ### Frame lemmas: no evaluator after the safety filter touches the
score of a mask-unsafe move -/

theorem evaluate_space_availability_frame (my_head : Pos) (my_length : Nat)
    (sc : MoveMap ℚ) (mask : MoveMap Bool) (gs : GameState) (m : Move)
    (hm : mask.get m = false) :
    (evaluate_space_availability my_head my_length sc mask gs).get m = sc.get m := by
  unfold evaluate_space_availability
  refine foldl_get_preserve _ m possibleMoves sc ?_
  intro sc1 mv _
  by_cases e : mv = m
  · subst e; simp [hm]
  · have e2 : m ≠ mv := Ne.symm e
    simp [apply_ite (fun t : MoveMap ℚ => MoveMap.get t m), MoveMap.get_set, e2]

theorem apply_hunting_strategy_frame (my_head : Pos) (ho : HuntOption)
    (sc : MoveMap ℚ) (mask : MoveMap Bool) (m : Move)
    (hm : mask.get m = false) :
    (apply_hunting_strategy my_head ho sc mask).get m = sc.get m := by
  unfold apply_hunting_strategy
  refine foldl_get_preserve _ m possibleMoves sc ?_
  intro sc1 mv _
  by_cases e : mv = m
  · subst e; simp [hm]
  · have e2 : m ≠ mv := Ne.symm e
    simp [apply_ite (fun t : MoveMap ℚ => MoveMap.get t m), MoveMap.get_set, e2]

theorem apply_food_seeking_frame (my_head : Pos) (target : Pos)
    (sc : MoveMap ℚ) (mask : MoveMap Bool) (weight : ℚ) (m : Move)
    (hm : mask.get m = false) :
    (apply_food_seeking my_head target sc mask weight).get m = sc.get m := by
  unfold apply_food_seeking
  refine foldl_get_preserve _ m possibleMoves sc ?_
  intro sc1 mv _
  by_cases e : mv = m
  · subst e; simp [hm]
  · have e2 : m ≠ mv := Ne.symm e
    simp [apply_ite (fun t : MoveMap ℚ => MoveMap.get t m), MoveMap.get_set, e2]

theorem evaluate_emergency_strategy_enhanced_frame (my_head : Pos) (my_length : Nat)
    (my_health : Int) (food : List Pos) (opponents : List Snake)
    (sc : MoveMap ℚ) (mask : MoveMap Bool) (gs : GameState) (hrt : Int) (m : Move)
    (hm : mask.get m = false) :
    (evaluate_emergency_strategy_enhanced my_head my_length my_health food opponents
      sc mask gs hrt).get m = sc.get m := by
  unfold evaluate_emergency_strategy_enhanced
  cases best_hunt_option gs my_head my_length my_health opponents hrt <;>
    cases best_food_option my_head my_health food <;> dsimp only
  · exact apply_food_seeking_frame _ _ _ _ _ _ hm
  · exact apply_hunting_strategy_frame _ _ _ _ _ hm
  · split
    · exact apply_hunting_strategy_frame _ _ _ _ _ hm
    · exact apply_food_seeking_frame _ _ _ _ _ _ hm

theorem evaluate_food_seeking_smart_frame (my_head : Pos) (food : List Pos)
    (sc : MoveMap ℚ) (mask : MoveMap Bool) (is_critical need_food : Bool)
    (gs : GameState) (m : Move) (hm : mask.get m = false) :
    (evaluate_food_seeking_smart my_head food sc mask is_critical need_food gs).get m
      = sc.get m := by
  unfold evaluate_food_seeking_smart
  cases food with
  | nil => rfl
  | cons f fs =>
    simp only [List.map_cons]
    refine foldl_get_preserve _ m possibleMoves sc ?_
    intro sc1 mv _
    by_cases e : mv = m
    · subst e; simp [hm]
    · have e2 : m ≠ mv := Ne.symm e
      simp [apply_ite (fun t : MoveMap ℚ => MoveMap.get t m), MoveMap.get_set, e2]

theorem evaluate_aggressive_strategy_frame (my_head : Pos) (my_length : Nat)
    (opponents : List Snake) (sc : MoveMap ℚ) (mask : MoveMap Bool) (m : Move)
    (hm : mask.get m = false) :
    (evaluate_aggressive_strategy my_head my_length opponents sc mask).get m
      = sc.get m := by
  unfold evaluate_aggressive_strategy
  refine foldl_get_preserve _ m opponents sc ?_
  intro sc1 opp _
  dsimp only
  split <;>
  · refine foldl_get_preserve _ m possibleMoves sc1 ?_
    intro sc2 mv _
    by_cases e : mv = m
    · subst e; simp [hm]
    · have e2 : m ≠ mv := Ne.symm e
      simp [apply_ite (fun t : MoveMap ℚ => MoveMap.get t m), MoveMap.get_set, e2]

theorem evaluate_head_to_head_defense_enhanced_frame (my_head : Pos) (my_length : Nat)
    (opponents : List Snake) (w h : Int) (sc : MoveMap ℚ) (mask : MoveMap Bool)
    (m : Move) (hm : mask.get m = false) :
    (evaluate_head_to_head_defense_enhanced my_head my_length opponents w h sc mask).get m
      = sc.get m := by
  unfold evaluate_head_to_head_defense_enhanced
  refine foldl_get_preserve _ m opponents sc ?_
  intro sc1 opp _
  dsimp only
  split
  · refine foldl_get_preserve _ m possibleMoves sc1 ?_
    intro sc2 mv _
    by_cases e : mv = m
    · subst e; simp [hm]
    · have e2 : m ≠ mv := Ne.symm e
      simp [apply_ite (fun t : MoveMap ℚ => MoveMap.get t m), MoveMap.get_set, e2]
  · rfl

theorem evaluate_position_preference_frame (my_head : Pos) (w h : Int)
    (sc : MoveMap ℚ) (mask : MoveMap Bool) (m : Move)
    (hm : mask.get m = false) :
    (evaluate_position_preference my_head w h sc mask).get m = sc.get m := by
  unfold evaluate_position_preference
  refine foldl_get_preserve _ m possibleMoves sc ?_
  intro sc1 mv _
  by_cases e : mv = m
  · subst e; simp [hm]
  · have e2 : m ≠ mv := Ne.symm e
    simp [apply_ite (fun t : MoveMap ℚ => MoveMap.get t m), MoveMap.get_set, e2]

theorem pos_eq_comm_iff (p q : Pos) : q = p ↔ p.x = q.x ∧ p.y = q.y := by
  cases p
  cases q
  simp [Pos.mk.injEq, eq_comm, and_comm]

/-- The Bool unsafety test of the source agrees with the specification's
disjunction whenever the body has a neck (length at least 2). -/
theorem basic_safety_blocked_iff_spec (gs : GameState) (m : Move)
    (h2 : 2 ≤ gs.you.body.length) :
    basic_safety_blocked gs.you.body.headI (gs.you.body.get? 1) gs.you.body
      (opponents_of gs) gs.board.width gs.board.height m = true
      ↔ safety_unsafe_spec gs m := by
  have hlt : 1 < gs.you.body.length := h2
  obtain ⟨neck, hneck⟩ : ∃ p, gs.you.body.get? 1 = some p :=
    ⟨gs.you.body.get ⟨1, hlt⟩, List.get?_eq_get hlt⟩
  unfold basic_safety_blocked safety_unsafe_spec
  rw [hneck]
  simp only [Bool.or_eq_true, Bool.and_eq_true, beq_iff_eq,
    is_collision_with_body_iff, is_collision_with_opponents_iff,
    Bool.not_eq_true', Bool.eq_false_iff, Ne, is_in_bounds_iff, hneck,
    Option.some.injEq]
  rw [pos_eq_comm_iff]
  tauto

/-! ### Claim theorems -/

/-- C10 (confirmed): no scoring pass after the Safety Filter changes the
score of a move whose mask is false, so every move the Safety Filter marks
unsafe ends the turn with accumulated score exactly -10000. -/
theorem unsafe_score_frozen (gs : GameState) (m : Move)
    (h : (final_mask gs).get m = false) :
    (final_scores gs).get m = -10000 := by
  have hmask : ((evaluate_basic_safety gs.you.body.headI gs.you.body (opponents_of gs)
      gs.board.width gs.board.height (MoveMap.const 0)).2).get m = false := h
  have hblocked : basic_safety_blocked gs.you.body.headI (gs.you.body.get? 1) gs.you.body
      (opponents_of gs) gs.board.width gs.board.height m = true := by
    have h2 := evaluate_basic_safety_get_mask gs.you.body.headI gs.you.body
      (opponents_of gs) gs.board.width gs.board.height (MoveMap.const 0) m
    rw [hmask] at h2
    simpa using h2.symm
  have F5 : ∀ (sc : MoveMap ℚ) (hd : Pos) (w hh : Int),
      (evaluate_position_preference hd w hh sc
        (evaluate_basic_safety gs.you.body.headI gs.you.body (opponents_of gs)
          gs.board.width gs.board.height (MoveMap.const 0)).2).get m = sc.get m :=
    fun sc hd w hh => evaluate_position_preference_frame hd w hh sc _ m hmask
  have F4 : ∀ (sc : MoveMap ℚ) (hd : Pos) (len : Nat) (opps : List Snake) (w hh : Int),
      (evaluate_head_to_head_defense_enhanced hd len opps w hh sc
        (evaluate_basic_safety gs.you.body.headI gs.you.body (opponents_of gs)
          gs.board.width gs.board.height (MoveMap.const 0)).2).get m = sc.get m :=
    fun sc hd len opps w hh =>
      evaluate_head_to_head_defense_enhanced_frame hd len opps w hh sc _ m hmask
  have F3 : ∀ (sc : MoveMap ℚ) (hd : Pos) (len : Nat) (opps : List Snake),
      (evaluate_aggressive_strategy hd len opps sc
        (evaluate_basic_safety gs.you.body.headI gs.you.body (opponents_of gs)
          gs.board.width gs.board.height (MoveMap.const 0)).2).get m = sc.get m :=
    fun sc hd len opps => evaluate_aggressive_strategy_frame hd len opps sc _ m hmask
  have F2e : ∀ (sc : MoveMap ℚ) (hd : Pos) (len : Nat) (hlth : Int) (fd : List Pos)
      (opps : List Snake) (gs2 : GameState) (hrt : Int),
      (evaluate_emergency_strategy_enhanced hd len hlth fd opps sc
        (evaluate_basic_safety gs.you.body.headI gs.you.body (opponents_of gs)
          gs.board.width gs.board.height (MoveMap.const 0)).2 gs2 hrt).get m = sc.get m :=
    fun sc hd len hlth fd opps gs2 hrt =>
      evaluate_emergency_strategy_enhanced_frame hd len hlth fd opps sc _ gs2 hrt m hmask
  have F2f : ∀ (sc : MoveMap ℚ) (hd : Pos) (fd : List Pos) (c n : Bool) (gs2 : GameState),
      (evaluate_food_seeking_smart hd fd sc
        (evaluate_basic_safety gs.you.body.headI gs.you.body (opponents_of gs)
          gs.board.width gs.board.height (MoveMap.const 0)).2 c n gs2).get m = sc.get m :=
    fun sc hd fd c n gs2 => evaluate_food_seeking_smart_frame hd fd sc _ c n gs2 m hmask
  have F1 : ∀ (sc : MoveMap ℚ) (hd : Pos) (len : Nat) (gs2 : GameState),
      (evaluate_space_availability hd len sc
        (evaluate_basic_safety gs.you.body.headI gs.you.body (opponents_of gs)
          gs.board.width gs.board.height (MoveMap.const 0)).2 gs2).get m = sc.get m :=
    fun sc hd len gs2 => evaluate_space_availability_frame hd len sc _ gs2 m hmask
  show (move_pipeline initial_module_state gs).1.get m = -10000
  unfold move_pipeline
  dsimp only
  simp only [apply_ite (fun t : MoveMap ℚ => MoveMap.get t m), F5, F4, F3, F2e, F2f, F1,
    ite_self]
  rw [evaluate_basic_safety_get_score, if_pos hblocked, MoveMap.get_const]
  norm_num

/-- C3 (confirmed): with Self body length at least 2, the Safety Filter
clears a move's mask and charges exactly -10000 precisely when the
specification's unsafety disjunction holds (neck reversal, out of bounds,
non-tail self collision, non-tail opponent collision); otherwise the mask
stays true and the filter contributes nothing. -/
theorem safety_filter_characterization (gs : GameState) (m : Move) (sc : MoveMap ℚ)
    (h2 : 2 ≤ gs.you.body.length) :
    ((((evaluate_basic_safety gs.you.body.headI gs.you.body (opponents_of gs)
          gs.board.width gs.board.height sc).2).get m = false ∧
      ((evaluate_basic_safety gs.you.body.headI gs.you.body (opponents_of gs)
          gs.board.width gs.board.height sc).1).get m = sc.get m - 10000)
      ↔ safety_unsafe_spec gs m) ∧
    (((evaluate_basic_safety gs.you.body.headI gs.you.body (opponents_of gs)
        gs.board.width gs.board.height sc).2).get m = true →
      ((evaluate_basic_safety gs.you.body.headI gs.you.body (opponents_of gs)
          gs.board.width gs.board.height sc).1).get m = sc.get m) := by
  rw [evaluate_basic_safety_get_mask, evaluate_basic_safety_get_score]
  by_cases hu : basic_safety_blocked gs.you.body.headI (gs.you.body.get? 1) gs.you.body
      (opponents_of gs) gs.board.width gs.board.height m = true
  · rw [if_pos hu, hu]
    constructor
    · simp [(basic_safety_blocked_iff_spec gs m h2).mp hu]
    · simp
  · have hu2 : basic_safety_blocked gs.you.body.headI (gs.you.body.get? 1) gs.you.body
        (opponents_of gs) gs.board.width gs.board.height m = false :=
      Bool.not_eq_true _ ▸ Bool.of_not_eq_true hu
    rw [hu2, if_neg (by simp [hu2])]
    constructor
    · constructor
      · rintro ⟨hfalse, -⟩
        cases hfalse
      · intro hspec
        exact absurd ((basic_safety_blocked_iff_spec gs m h2).mpr hspec) hu
    · intro
      rfl

/-- C3 witness: in the open snapshot, the reverse move down is flagged with
mask false and exactly -10000; the proof instantiates the characterization
at that snapshot. -/
theorem safety_filter_characterization_witness :
    ((evaluate_basic_safety open_board_state.you.body.headI open_board_state.you.body
        (opponents_of open_board_state) open_board_state.board.width
        open_board_state.board.height (MoveMap.const 0)).2).get Move.down = false ∧
    ((evaluate_basic_safety open_board_state.you.body.headI open_board_state.you.body
        (opponents_of open_board_state) open_board_state.board.width
        open_board_state.board.height (MoveMap.const 0)).1).get Move.down
      = (MoveMap.const 0).get Move.down - 10000 := by
  have h := safety_filter_characterization open_board_state Move.down (MoveMap.const 0)
    (by decide)
  exact h.1.mpr (Or.inl rfl)

/-- C5 (confirmed): the engine is a pure function of the snapshot.  `move`
returns the module state unchanged, so a second invocation from the state
the first one leaves behind returns the same move. -/
theorem move_deterministic_stateless (ms : ModuleState) (gs : GameState) :
    (move ms gs).2 = ms ∧ (move ((move ms gs).2) gs).1 = (move ms gs).1 :=
  ⟨rfl, rfl⟩

theorem flood_fill_aux_le_base (obst : List Pos) (w h : Int) (bm ss : Nat) :
    ∀ (fuel : Nat) (queue visited : List Pos) (count : Nat), count ≤ bm →
      flood_fill_aux obst w h bm ss fuel queue visited count ≤ bm := by
  intro fuel
  induction fuel with
  | zero => intro q v c hc; exact hc
  | succ n ih =>
    intro q v c hc
    match q with
    | [] => exact hc
    | cur :: rest =>
      rw [flood_fill_aux]
      dsimp only
      split
      · split
        · omega
        · exact ih _ _ _ (by omega)
      · exact hc

theorem flood_fill_aux_le_safe (obst : List Pos) (w h : Int) (bm ss : Nat) :
    ∀ (fuel : Nat) (queue visited : List Pos) (count : Nat), count < ss →
      flood_fill_aux obst w h bm ss fuel queue visited count ≤ ss := by
  intro fuel
  induction fuel with
  | zero => intro q v c hc; exact Nat.le_of_lt hc
  | succ n ih =>
    intro q v c hc
    match q with
    | [] => exact Nat.le_of_lt hc
    | cur :: rest =>
      rw [flood_fill_aux]
      dsimp only
      split
      · split
        · omega
        · exact ih _ _ _ (by omega)
      · exact Nat.le_of_lt hc

theorem flood_base_max_le_250 (w h : Int) : flood_base_max w h ≤ 250 := by
  unfold flood_base_max
  dsimp only
  split
  · omega
  · split
    · omega
    · exact Nat.min_le_right _ _

/-- C6 (confirmed): the flood fill's result (the count of visited cells it
returns) is bounded by the area-proportional iteration cap, that cap never
exceeds the 250 ceiling, and the early exit keeps the count at or below
three times Self's length. -/
theorem flood_fill_dynamic_bounded (start : Pos) (gs : GameState)
    (h1 : 1 ≤ gs.you.body.length) :
    flood_fill_dynamic start gs ≤ flood_base_max gs.board.width gs.board.height ∧
    flood_fill_dynamic start gs ≤ gs.you.body.length * 3 ∧
    flood_base_max gs.board.width gs.board.height ≤ 250 := by
  refine ⟨?_, ?_, flood_base_max_le_250 _ _⟩
  · unfold flood_fill_dynamic
    exact flood_fill_aux_le_base _ _ _ _ _ _ _ _ _ (Nat.zero_le _)
  · unfold flood_fill_dynamic
    exact flood_fill_aux_le_safe _ _ _ _ _ _ _ _ _ (by omega)

/-- C6 witness: the bounds instantiated on the open snapshot. -/
theorem flood_fill_dynamic_bounded_witness :
    flood_fill_dynamic ⟨2, 3⟩ open_board_state
        ≤ flood_base_max open_board_state.board.width open_board_state.board.height ∧
    flood_fill_dynamic ⟨2, 3⟩ open_board_state ≤ open_board_state.you.body.length * 3 ∧
    flood_base_max open_board_state.board.width open_board_state.board.height ≤ 250 :=
  flood_fill_dynamic_bounded ⟨2, 3⟩ open_board_state (by decide)

/-- C7 (confirmed): the dynamic aggression threshold equals the
specification's prioritized rule table. -/
theorem dynamic_threshold_matches_spec (gs : GameState) :
    calculate_dynamic_aggressive_threshold gs = aggression_threshold_spec gs := by
  unfold calculate_dynamic_aggressive_threshold aggression_threshold_spec
  cases hop : opponents_of gs with
  | nil => simp
  | cons o os =>
    simp only [List.isEmpty_cons, Bool.false_eq_true, if_false]
    split_ifs <;> first | rfl | omega

/-- C8 counterexample: with Self length 3 fixed, raising the opponents'
average length from 5 to 7 drops the threshold from 11 (maximum-length
rule) to 10 (average rule), so the claimed monotonicity fails. -/
theorem threshold_monotone_counterexample :
    weak_average_state.you.body.length = strong_average_state.you.body.length ∧
    average_opponent_length (opponents_of weak_average_state)
      ≤ average_opponent_length (opponents_of strong_average_state) ∧
    ¬(calculate_dynamic_aggressive_threshold weak_average_state
        ≤ calculate_dynamic_aggressive_threshold strong_average_state) := by
  decide

/-- C8 (corrected): the amended monotonicity.  With the opponent count also
held fixed and the maximum-length rule disarmed (no opponent longer than
self length + 4 on either side), a larger average opponent length never
produces a smaller threshold. -/
theorem threshold_monotone_in_average (gs1 gs2 : GameState)
    (hlen : gs1.you.body.length = gs2.you.body.length)
    (hcount : (opponents_of gs1).length = (opponents_of gs2).length)
    (hne : opponents_of gs1 ≠ [])
    (hmax1 : max_opponent_length (opponents_of gs1) ≤ gs1.you.body.length + 4)
    (hmax2 : max_opponent_length (opponents_of gs2) ≤ gs2.you.body.length + 4)
    (havg : average_opponent_length (opponents_of gs1)
        ≤ average_opponent_length (opponents_of gs2)) :
    calculate_dynamic_aggressive_threshold gs1
      ≤ calculate_dynamic_aggressive_threshold gs2 := by
  have hne2 : opponents_of gs2 ≠ [] := by
    intro h0
    rw [h0, List.length_nil, List.length_eq_zero] at hcount
    exact hne hcount
  have he1 : (opponents_of gs1).isEmpty = false := by
    simpa [List.isEmpty_iff] using hne
  have he2 : (opponents_of gs2).isEmpty = false := by
    simpa [List.isEmpty_iff] using hne2
  have hq : (gs1.you.body.length : ℚ) = (gs2.you.body.length : ℚ) := by
    exact_mod_cast congrArg (Nat.cast : Nat → ℚ) hlen
  unfold calculate_dynamic_aggressive_threshold
  dsimp only
  rw [he1, he2]
  simp only [Bool.false_eq_true, if_false]
  rw [hlen] at hmax1
  rw [hlen, hcount]
  split_ifs <;> first | rfl | omega | linarith

/-- C8 witness: the amended monotonicity applied to one opponent of length
2 against one of length 4 (thresholds 7 and 7). -/
theorem threshold_monotone_in_average_witness :
    calculate_dynamic_aggressive_threshold calm_state_small
      ≤ calculate_dynamic_aggressive_threshold calm_state_large :=
  threshold_monotone_in_average calm_state_small calm_state_large (by decide) (by decide)
    (by decide) (by decide) (by decide) (by decide)

theorem selection_mem_candidates (sc : MoveMap ℚ) (mask : MoveMap Bool)
    (c : Move) (cs : List Move)
    (hc : possibleMoves.filter
        (fun mv => mask.get mv && decide (-9000 < sc.get mv)) = c :: cs) :
    select_best_move sc mask ∈ c :: cs := by
  unfold select_best_move
  dsimp only
  rw [hc]
  exact first_argmax_mem (py_max_by_first_argmax _ c cs)

/-- A candidate move (mask true, score above -9000) forces the selected move
to be a candidate as well. -/
theorem selection_respects_mask (gs : GameState) (m : Move)
    (hm : (final_mask gs).get m = true)
    (hs : -9000 < (final_scores gs).get m) :
    (final_mask gs).get (move_decision gs) = true ∧
    -9000 < (final_scores gs).get (move_decision gs) := by
  have hmem : m ∈ possibleMoves.filter
      (fun mv => (final_mask gs).get mv && decide (-9000 < (final_scores gs).get mv)) :=
    List.mem_filter.mpr ⟨mem_possibleMoves m, by simp [hm, hs]⟩
  cases hc : possibleMoves.filter
      (fun mv => (final_mask gs).get mv && decide (-9000 < (final_scores gs).get mv)) with
  | nil => rw [hc] at hmem; cases hmem
  | cons c cs =>
    have hsel : move_decision gs ∈ c :: cs := by
      show select_best_move (final_scores gs) (final_mask gs) ∈ c :: cs
      exact selection_mem_candidates _ _ c cs hc
    rw [← hc] at hsel
    have hprop := (List.mem_filter.mp hsel).2
    rw [Bool.and_eq_true, decide_eq_true_eq] at hprop
    exact hprop

/-- C2 (confirmed): the Decision Aggregator.  When no mask-safe move scores
above -9000 the selected move is the first arg-max over all four moves;
otherwise it is the first arg-max among the candidates, both in the fixed
enumeration order up, down, left, right. -/
theorem decision_aggregator_characterization (gs : GameState) :
    ((possibleMoves.filter (fun mv => (final_mask gs).get mv &&
        decide (-9000 < (final_scores gs).get mv)) = []) →
      first_argmax (fun mv => (final_scores gs).get mv) possibleMoves (move_decision gs)) ∧
    (∀ (c : Move) (cs : List Move), possibleMoves.filter (fun mv => (final_mask gs).get mv &&
        decide (-9000 < (final_scores gs).get mv)) = c :: cs →
      first_argmax (fun mv => (final_scores gs).get mv) (c :: cs) (move_decision gs)) := by
  constructor
  · intro hnil
    show first_argmax (fun mv => (final_scores gs).get mv) possibleMoves
      (select_best_move (final_scores gs) (final_mask gs))
    unfold select_best_move
    dsimp only
    rw [hnil]
    exact py_max_by_first_argmax _ Move.up [Move.down, Move.left, Move.right]
  · intro c cs hcons
    show first_argmax (fun mv => (final_scores gs).get mv) (c :: cs)
      (select_best_move (final_scores gs) (final_mask gs))
    unfold select_best_move
    dsimp only
    rw [hcons]
    exact py_max_by_first_argmax _ c cs

set_option maxRecDepth 200000 in
/-- C1 counterexample: in the corner-trap snapshot the move right has mask
true, yet the engine returns a mask-false move (the head-to-head penalty
drove the only mask-true move below every -10000 mask-false score, emptying
the candidate list and sending the fallback arg-max to a mask-false move). -/
theorem mask_priority_counterexample :
    (final_mask corner_trap_state).get Move.right = true ∧
    (final_mask corner_trap_state).get (move_decision corner_trap_state) = false := by
  decide

/-- C1 (corrected): the amended guarantee.  Whenever some move has mask true
AND accumulated score above -9000, the selected move has mask true. -/
theorem mask_priority_amended (gs : GameState) (m : Move)
    (hm : (final_mask gs).get m = true)
    (hs : -9000 < (final_scores gs).get m) :
    (final_mask gs).get (move_decision gs) = true :=
  (selection_respects_mask gs m hm hs).1

/-- C1 witness: the amended guarantee on the open snapshot, where up is a
candidate. -/
theorem mask_priority_amended_witness :
    (final_mask open_board_state).get (move_decision open_board_state) = true :=
  mask_priority_amended open_board_state Move.up (by decide) (by decide)

set_option maxRecDepth 200000 in
/-- C4 counterexample: in the corner-trap snapshot the mask-true move right
exists, yet the engine selects up, the reversal onto the neck. -/
theorem no_reversal_counterexample :
    corner_trap_state.you.body.get? 1
        = some (get_next_position corner_trap_state.you.body.headI Move.up) ∧
    (final_mask corner_trap_state).get Move.right = true ∧
    move_decision corner_trap_state = Move.up := by
  decide

/-- C4 (corrected): the amended no-self-reversal guarantee.  With body
length at least 2, the neck-reversal move is never selected as long as some
other move has mask true and score above -9000. -/
theorem no_reversal_amended (gs : GameState) (m m2 : Move) (neck : Pos)
    (h2 : 2 ≤ gs.you.body.length)
    (hneckq : gs.you.body.get? 1 = some neck)
    (hrev : get_next_position gs.you.body.headI m = neck)
    (hm2 : (final_mask gs).get m2 = true)
    (hs2 : -9000 < (final_scores gs).get m2) :
    move_decision gs ≠ m := by
  have hmaskm : (final_mask gs).get m = false := by
    show ((evaluate_basic_safety gs.you.body.headI gs.you.body (opponents_of gs)
        gs.board.width gs.board.height (MoveMap.const 0)).2).get m = false
    rw [evaluate_basic_safety_get_mask]
    have hu : basic_safety_blocked gs.you.body.headI (gs.you.body.get? 1) gs.you.body
        (opponents_of gs) gs.board.width gs.board.height m = true := by
      unfold basic_safety_blocked
      rw [hneckq]
      dsimp only
      rw [hrev]
      simp
    rw [hu]
    rfl
  intro heq
  have hmt := (selection_respects_mask gs m2 hm2 hs2).1
  rw [heq, hmaskm] at hmt
  cases hmt

/-- C4 witness: the amended guarantee on the open snapshot, where down
reverses onto the neck and up is a candidate. -/
theorem no_reversal_amended_witness :
    move_decision open_board_state ≠ Move.down :=
  no_reversal_amended open_board_state Move.down Move.up ⟨2, 1⟩ (by decide) (by decide)
    (by decide) (by decide) (by decide)

theorem apply_food_seeking_get (my_head target : Pos) (sc : MoveMap ℚ)
    (mask : MoveMap Bool) (w : ℚ) (m : Move) :
    (apply_food_seeking my_head target sc mask w).get m
      = sc.get m + (if mask.get m then
          w / ((manhattan_distance (get_next_position my_head m) target : ℚ) + 1)
        else 0) := by
  cases m <;>
    simp only [apply_food_seeking, possibleMoves, List.foldl] <;>
    (repeat' split) <;>
    simp_all [MoveMap.get, MoveMap.set]

theorem apply_hunting_strategy_get (my_head : Pos) (ho : HuntOption) (sc : MoveMap ℚ)
    (mask : MoveMap Bool) (m : Move) :
    (apply_hunting_strategy my_head ho sc mask).get m
      = sc.get m + (if mask.get m then
          ho.score / ((manhattan_distance (get_next_position my_head m) ho.target : ℚ) + 1)
        else 0) := by
  cases m <;>
    simp only [apply_hunting_strategy, possibleMoves, List.foldl] <;>
    (repeat' split) <;>
    simp_all [MoveMap.get, MoveMap.set]

/-- C9 counterexample: in the emergency snapshot the food option (score
500/3 at distance 2) is chosen, and the mask-safe move right receives
500 / (1 + 1) = 250 — not the claimed option_score / (distance + 1), which
would be 250/3. -/
theorem emergency_projection_counterexample :
    (evaluate_emergency_strategy_enhanced hungry_state.you.body.headI
        hungry_state.you.body.length hungry_state.you.health hungry_state.board.food
        (opponents_of hungry_state) (MoveMap.const 0) (final_mask hungry_state)
        hungry_state 3).get Move.right
      ≠ (MoveMap.const 0).get Move.right
          + emergency_delta_claimed hungry_state (final_mask hungry_state) Move.right := by
  decide

/-- C9 (corrected): the amended emergency projection.  In emergency mode the
arbitration is as claimed (hunt only if its score is above twice the food
score with a safe chase path and third-party risk below 100; a single
option is chosen directly), and the chosen option adds
`weight / (distance + 1)` to every mask-safe move, where the weight is the
hunt option's score for hunting but the fixed constant 500 for food. -/
theorem emergency_projection_amended (gs : GameState) (sc : MoveMap ℚ)
    (mask : MoveMap Bool) (m : Move)
    (hcrit : gs.you.health < 15) (hopp : opponents_of gs ≠ []) :
    (evaluate_emergency_strategy_enhanced gs.you.body.headI gs.you.body.length
        gs.you.health gs.board.food (opponents_of gs) sc mask gs 3).get m
      = sc.get m + emergency_delta_amended gs mask m := by
  unfold evaluate_emergency_strategy_enhanced emergency_delta_amended
  dsimp only
  cases hh : best_hunt_option gs gs.you.body.headI gs.you.body.length gs.you.health
      (opponents_of gs) 3 <;>
    cases hf : best_food_option gs.you.body.headI gs.you.health gs.board.food <;>
    dsimp only
  · cases hg : mask.get m <;> simp [hg]
  · rw [apply_food_seeking_get]
    cases hg : mask.get m <;> simp [hg]
  · rw [apply_hunting_strategy_get]
    cases hg : mask.get m <;> simp [hg]
  · split
    · rw [apply_hunting_strategy_get]
      cases hg : mask.get m <;> simp [hg]
    · rw [apply_food_seeking_get]
      cases hg : mask.get m <;> simp [hg]

/-- C9 witness: the amended projection instantiated on the emergency
snapshot at the mask-safe move right. -/
theorem emergency_projection_amended_witness :
    (evaluate_emergency_strategy_enhanced hungry_state.you.body.headI
        hungry_state.you.body.length hungry_state.you.health hungry_state.board.food
        (opponents_of hungry_state) (MoveMap.const 0) (final_mask hungry_state)
        hungry_state 3).get Move.right
      = (MoveMap.const 0).get Move.right
          + emergency_delta_amended hungry_state (final_mask hungry_state) Move.right :=
  emergency_projection_amended hungry_state (MoveMap.const 0) (final_mask hungry_state)
    Move.right (by decide) (by decide)

/-- C10 witness: in the open snapshot the reverse move down is mask-false
and finishes the turn at exactly -10000. -/
theorem unsafe_score_frozen_witness :
    (final_scores open_board_state).get Move.down = -10000 :=
  unsafe_score_frozen open_board_state Move.down (by decide)

end MikeSnake
